import Mathlib

/-!
Verification development for the `ubs-marketplace` repository.

The Python sources are shallowly embedded:
* `marketplace.py`'s filter loop over `app_cards` becomes `filtered_apps`
  over a `Record` type whose fields are `Option String` (a `none` field is a
  missing dictionary key; a lookup `app[k]` of a missing key is a `KeyError`,
  modelled with `Except Unit`).
* `helpers.py`'s `render_app_card` action construction becomes `buildActions`,
  with the Azure signing capability `get_signed_url` passed in as a function
  `String → Option String` (it is an external call).
* `assets.py`'s `_find_first_data_uri`, the `LOGO_URI`/`HERO_URI`/font
  constants and `fontface_blocks` become functions of the (optionally
  readable) web archive.
* The search-icon extraction over the fetched SVG defs document becomes
  `extract_search_icon` over an XML element tree.
-/

namespace UbsMarketplace

/-! ## Python string primitives -/

/-- `startsWith needle hay`: `needle` is an initial segment of `hay`. -/
def startsWith : List Char → List Char → Bool
  | [], _ => true
  | _ :: _, [] => false
  | a :: ns, b :: hs => a = b && startsWith ns hs

/-- `hasSub hay needle`: `needle` occurs contiguously inside `hay`. -/
def hasSub : List Char → List Char → Bool
  | [], needle => needle.isEmpty
  | h :: t, needle => startsWith needle (h :: t) || hasSub t needle

/-- Python `needle in hay` for strings: substring containment. -/
def strContains (hay needle : String) : Bool :=
  hasSub hay.data needle.data

/-- Python `str.lower()` on the ASCII range (the only characters appearing
in the data this program lowers). -/
def lowerChar (c : Char) : Char :=
  if 65 ≤ c.toNat && c.toNat ≤ 90 then Char.ofNat (c.toNat + 32) else c

/-- Python `str.lower()`. -/
def lowerStr (s : String) : String :=
  String.mk (s.data.map lowerChar)

/-- Python whitespace characters stripped by `str.strip()`. -/
def isPyWs (c : Char) : Bool :=
  c = ' ' || c = '\t' || c = '\n' || c = '\r' || c = '\x0b' || c = '\x0c'

/-- Python `str.strip()`: drop leading and trailing whitespace. -/
def pyStrip (s : String) : String :=
  String.mk (((s.data.dropWhile isPyWs).reverse.dropWhile isPyWs).reverse)

/-- One character of Python `html.escape` (quote=True). -/
def escapeChar (c : Char) : String :=
  if c = '&' then "&amp;"
  else if c = '<' then "&lt;"
  else if c = '>' then "&gt;"
  else if c = '"' then "&quot;"
  else if c = '\x27' then "&#x27;"
  else String.singleton c

/-- Python `html.escape(s)` with default quoting. -/
def htmlEscape (s : String) : String :=
  String.join (s.data.map escapeChar)

/-- Python truthiness of an optional string (`None` and `""` are falsy). -/
def pyTruthy (o : Option String) : Bool :=
  match o with
  | some s => decide (s ≠ "")
  | none => false

/-- Python `a or b` where `a` is an optional string and `b` a string. -/
def pyOrStr (a : Option String) (b : String) : String :=
  match a with
  | some s => if s = "" then b else s
  | none => b

/-- Python `a or b` on two optional strings. -/
def pyOrOpt (a b : Option String) : Option String :=
  match a with
  | some s => if s = "" then b else some s
  | none => b

/-- `search_query.lower() in title.lower()`: case-insensitive containment. -/
def titleMatches (query title : String) : Bool :=
  strContains (lowerStr title) (lowerStr query)

/-! ## Catalog records and filter criteria (`marketplace.py`)

A `Record` is one entry of `apps.json`; an absent field is a missing
dictionary key. -/

structure Record where
  title : Option String := none
  description : Option String := none
  image : Option String := none
  alt : Option String := none
  ai_type : Option String := none
  business_line : Option String := none
  function : Option String := none
  status : Option String := none
  app_url : Option String := none
  demo_url : Option String := none
  docs_url : Option String := none
deriving DecidableEq, Repr

/-- The filter inputs of the toolbar: `search_query` plus the three
multi-select pill groups. -/
structure Criteria where
  searchText : String := ""
  aiTypes : List String := []
  businessLines : List String := []
  functions : List String := []
deriving DecidableEq, Repr

/-- `if search_query and search_query.lower() not in app["title"].lower()`:
when the query is non-empty, `app["title"]` is looked up (KeyError when
missing) and the record passes this check iff the query is a
case-insensitive substring of the title. -/
def passSearch (q : String) (title : Option String) : Except Unit Bool :=
  if q = "" then .ok true
  else
    match title with
    | none => .error ()
    | some t => .ok (titleMatches q t)

/-- `if selected and app[k] not in selected`: with a non-empty selection the
field is looked up (KeyError when missing) and must be a member. -/
def passDim (sel : List String) (val : Option String) : Except Unit Bool :=
  if sel.isEmpty then .ok true
  else
    match val with
    | none => .error ()
    | some v => .ok (sel.contains v)

/-- The per-record body of the filter loop in `marketplace.py`: the four
checks run in order, each `continue` (exclusion) short-circuits the
remaining lookups. -/
def checkApp (cr : Criteria) (app : Record) : Except Unit Bool :=
  match passSearch cr.searchText app.title with
  | .error e => .error e
  | .ok false => .ok false
  | .ok true =>
    match passDim cr.aiTypes app.ai_type with
    | .error e => .error e
    | .ok false => .ok false
    | .ok true =>
      match passDim cr.businessLines app.business_line with
      | .error e => .error e
      | .ok false => .ok false
      | .ok true => passDim cr.functions app.function

/-- The filter loop: surviving records are appended in input order; an
uncaught KeyError aborts the whole loop. -/
def filtered_apps (cr : Criteria) (catalog : List Record) : Except Unit (List Record) :=
  match catalog with
  | [] => .ok []
  | a :: rest =>
    match checkApp cr a with
    | .error e => .error e
    | .ok keep =>
      match filtered_apps cr rest with
      | .error e => .error e
      | .ok out => .ok (if keep then a :: out else out)

/-- A record carrying all four fields the filter may look up. -/
def wellFormed (r : Record) : Bool :=
  r.title.isSome && r.ai_type.isSome && r.business_line.isSome && r.function.isSome

/-- The spec's pass predicate (§4.2): four AND-combined checks, an empty
dimension imposing no restriction. -/
def specPass (cr : Criteria) (r : Record) : Bool :=
  (decide (cr.searchText = "") || titleMatches cr.searchText (r.title.getD ""))
  && (cr.aiTypes.isEmpty || cr.aiTypes.contains (r.ai_type.getD ""))
  && (cr.businessLines.isEmpty || cr.businessLines.contains (r.business_line.getD ""))
  && (cr.functions.isEmpty || cr.functions.contains (r.function.getD ""))

/-! ## `render_app_card` (helpers.py)

The Azure signing capability `get_signed_url` is an external call; it is
passed in as `signed : String → Option String` (`none` = missing
configuration or signing error, in which case the Python function shows an
error and returns `None`). -/

/-- `html.escape(app.get("title", "Untitled application"))`. -/
def card_title (app : Record) : String :=
  htmlEscape (app.title.getD "Untitled application")

/-- The chevron SVG literal appended to the secondary links. -/
def chev : String :=
  "<svg class=\"ubs-chev\" viewBox=\"0 0 16 16\" aria-hidden=\"true\" focusable=\"false\"><path d=\"M5 3l5 5-5 5\"></path></svg>"

/-- The primary `Open app` anchor. -/
def primaryAction (u : String) : String :=
  "<a href=\x27" ++ htmlEscape u ++ "\x27 target=\x27_blank\x27 rel=\x27noopener noreferrer\x27 class=\x27ubs-btn-primary\x27>Open app</a>"

/-- The `Watch demo` anchor. -/
def demoAction (u : String) : String :=
  "<a  href=\x27" ++ htmlEscape u ++ "\x27 >Watch demo " ++ chev ++ "</a>"

/-- The `Read docs` anchor. -/
def docsAction (u : String) : String :=
  "<a  href=\x27" ++ htmlEscape u ++ "\x27 target=\x27_blank\x27 rel=\x27noopener noreferrer\x27>Read docs " ++ chev ++ "</a>"

/-- The demo-URL resolution step of `render_app_card`: when `demo_url` is
non-empty, ask the signing capability; a truthy reply replaces the URL, a
falsy reply leaves the raw URL in place and emits a warning (the `Bool`). -/
def resolveDemo (signed : String → Option String) (demoUrl : String) : String × Bool :=
  if demoUrl ≠ "" then
    match signed demoUrl with
    | some a => if a = "" then (demoUrl, true) else (a, false)
    | none => (demoUrl, true)
  else (demoUrl, false)

/-- The `actions` list built by `render_app_card`, paired with whether the
signing-failure warning was shown. -/
def buildActions (signed : String → Option String) (app : Record) : List String × Bool :=
  let appUrl := pyStrip (app.app_url.getD "")
  let demoRaw := pyStrip (app.demo_url.getD "")
  let docsUrl := pyStrip (app.docs_url.getD "")
  let resolved := resolveDemo signed demoRaw
  let actions :=
    (if appUrl ≠ "" then [primaryAction appUrl] else [])
    ++ (if resolved.1 ≠ "" then [demoAction resolved.1] else [])
    ++ (if docsUrl ≠ "" then [docsAction docsUrl] else [])
  (actions, resolved.2)

/-! ## Web-archive assets (assets.py)

The plist archive file is external state: a call site either fails to open
or parse it (`none`) or obtains its parsed content (`some`).  Binary
payloads are byte lists. -/

/-- The base64 alphabet. -/
def b64Alphabet : List Char :=
  "ABCDEFGHIJKLMNOPQRSTUVWXYZabcdefghijklmnopqrstuvwxyz0123456789+/".data

/-- One base64 digit. -/
def b64Char (n : Nat) : Char :=
  b64Alphabet.getD n 'A'

/-- Standard base64 encoding with padding (Python `base64.b64encode`). -/
def base64Encode : List Nat → String
  | [] => ""
  | [a] =>
    String.mk [b64Char (a / 4), b64Char (a % 4 * 16)] ++ "=="
  | [a, b] =>
    String.mk [b64Char (a / 4), b64Char (a % 4 * 16 + b / 16), b64Char (b % 16 * 4)] ++ "="
  | a :: b :: c :: rest =>
    String.mk [b64Char (a / 4), b64Char (a % 4 * 16 + b / 16),
      b64Char (b % 16 * 4 + c / 64), b64Char (c % 64)] ++ base64Encode rest

/-- `_b64_uri(data, mime)`. -/
def b64Uri (data : List Nat) (mime : String) : String :=
  "data:" ++ mime ++ ";base64," ++ base64Encode data

/-- One entry of the archive's `WebSubresources` list; a `none` field is a
missing plist key. -/
structure WAResource where
  url : Option String := none
  mime : Option String := none
  data : Option (List Nat) := none
deriving DecidableEq, Repr

/-- The parsed archive (`WebSubresources` defaulting to `[]` is folded into
the list). -/
structure WebArchive where
  subresources : List WAResource := []
deriving DecidableEq, Repr

/-- `_data_uri_from_wa(r, mime_override)`. -/
def dataUriFromWa (r : WAResource) (mimeOverride : Option String) : String :=
  b64Uri (r.data.getD []) (pyOrStr mimeOverride (r.mime.getD "application/octet-stream"))

/-- The match test of `_find_first_data_uri`: every needle, lower-cased, is
a substring of the resource URL lower-cased (missing or null URL reads as
`""`). -/
def matchesNeedles (needles : List String) (r : WAResource) : Bool :=
  needles.all (fun n => strContains (lowerStr (r.url.getD "")) (lowerStr n))

/-- The scan over `WebSubresources`: first matching resource wins. -/
def findInList (rs : List WAResource) (needles : List String) (mimeOverride : Option String) :
    Option String :=
  match rs with
  | [] => none
  | r :: rest =>
    if matchesNeedles needles r then some (dataUriFromWa r mimeOverride)
    else findInList rest needles mimeOverride

/-- `_find_first_data_uri(needles, mime_override)`: `none` archive means the
file was missing or unreadable (the `except` branch). -/
def findFirstDataUri (wa : Option WebArchive) (needles : List String)
    (mimeOverride : Option String) : Option String :=
  match wa with
  | none => none
  | some w => findInList w.subresources needles mimeOverride

/-- `LOGO_URI` as a function of the archive state. -/
def LOGO_URI (wa : Option WebArchive) : String :=
  pyOrStr (findFirstDataUri wa ["ubs_", "logo", "semibold", ".svg"] none)
    "https://www.ubs.com/etc/designs/fit/img/UBS_Logo_Semibold.svg"

/-- `HERO_URI` as a function of the archive state. -/
def HERO_URI (wa : Option WebArchive) : String :=
  pyOrStr (findFirstDataUri wa ["promotion", "image-l", ".jpg"] none)
    "https://www.ubs.com/content/homepage/uk/en/new-promotions/gwr2025/jcr:content/promotion/image-l.3840.jpg/1750249353973.jpg"

/-- `FONT_LT`: `-lt` lookup, falling back to `light`. -/
def FONT_LT (wa : Option WebArchive) : Option String :=
  pyOrOpt (findFirstDataUri wa ["frutiger", "-lt", ".woff2"] (some "font/woff2"))
    (findFirstDataUri wa ["frutiger", "light", ".woff2"] (some "font/woff2"))

/-- `FONT_RG`: `-rg` lookup, then `regular`, then `roman`. -/
def FONT_RG (wa : Option WebArchive) : Option String :=
  pyOrOpt (findFirstDataUri wa ["frutiger", "-rg", ".woff2"] (some "font/woff2"))
    (pyOrOpt (findFirstDataUri wa ["frutiger", "regular", ".woff2"] (some "font/woff2"))
      (findFirstDataUri wa ["frutiger", "roman", ".woff2"] (some "font/woff2")))

/-- `FONT_MD`: `-md` lookup, falling back to `medium`. -/
def FONT_MD (wa : Option WebArchive) : Option String :=
  pyOrOpt (findFirstDataUri wa ["frutiger", "-md", ".woff2"] (some "font/woff2"))
    (findFirstDataUri wa ["frutiger", "medium", ".woff2"] (some "font/woff2"))

/-- `UBS_ICONS`: the icon-font lookup. -/
def UBS_ICONS (wa : Option WebArchive) : Option String :=
  findFirstDataUri wa ["ubs-homepagev3-font-icons", ".woff2"] (some "font/woff2")

/-- One Frutiger `@font-face` block of `fontface_blocks` (they differ only
in weight and payload). -/
def frutigerFace (weight : String) (u : String) : String :=
  "@font-face\x7bfont-family:\x27FrutigerforUBSWeb\x27;font-style:normal;font-weight:"
    ++ weight ++ ";font-display:swap;src:url(" ++ u ++ ") format(\x27woff2\x27);\x7d"

/-- The icon-font `@font-face` block. -/
def iconsFace (u : String) : String :=
  "@font-face\x7bfont-family:\x27ubs-icons\x27;font-style:normal;font-weight:300;font-display:block;src:url("
    ++ u ++ ") format(\x27woff2\x27);\x7d"

/-- The `faces` list assembled by `fontface_blocks`, mirroring the
sequential appends of the Python function. -/
def fontface_faces (lt rg md icons : Option String) : List String :=
  let faces : List String := []
  let faces := if pyTruthy lt then faces ++ [frutigerFace "300" (lt.getD "")] else faces
  let faces := if pyTruthy rg then faces ++ [frutigerFace "400" (rg.getD "")] else faces
  let faces := if pyTruthy md then faces ++ [frutigerFace "500" (md.getD "")] else faces
  let faces := if pyTruthy lt && !pyTruthy rg then
    faces ++ [frutigerFace "400" (lt.getD "")] else faces
  let faces := if pyTruthy icons then faces ++ [iconsFace (icons.getD "")] else faces
  faces

/-- `fontface_blocks()` as a function of the four resolved fonts. -/
def fontface_blocks (lt rg md icons : Option String) : String :=
  String.intercalate "\n" (fontface_faces lt rg md icons)

/-! ## Search-icon extraction (assets.py, module level)

The fetched `searchround` definitions document is modelled as an element
tree (attributes, children; text nodes are irrelevant to the `<path>`
elements extracted here).  `ElementTree.find(".//svg:path", ns)` returns the
first element with the namespaced tag in document order, or `None`; the
subsequent `ET.tostring(None)` raises, aborting module import — modelled as
`Except Unit`. -/

inductive XmlElem where
  | mk (tag : String) (attrs : List (String × String)) (children : List XmlElem)

/-- The element's tag. -/
def XmlElem.tag : XmlElem → String
  | .mk t _ _ => t

/-- The element's children. -/
def XmlElem.children : XmlElem → List XmlElem
  | .mk _ _ cs => cs

/-- Attribute serialization for `ET.tostring`. -/
def serializeAttrs : List (String × String) → String
  | [] => ""
  | (k, v) :: rest => " " ++ k ++ "=\"" ++ v ++ "\"" ++ serializeAttrs rest

mutual

/-- `ET.tostring(e, encoding="unicode")` (namespace-prefix rewriting aside):
self-closing tag for childless elements. -/
def serialize : XmlElem → String
  | .mk t attrs [] => "<" ++ t ++ serializeAttrs attrs ++ " />"
  | .mk t attrs (c :: cs) =>
    "<" ++ t ++ serializeAttrs attrs ++ ">" ++ serializeList (c :: cs) ++ "</" ++ t ++ ">"

/-- Serialization of a child list in order. -/
def serializeList : List XmlElem → String
  | [] => ""
  | c :: rest => serialize c ++ serializeList rest

end

mutual

/-- The proper descendants of an element in document order (preorder). -/
def descList : XmlElem → List XmlElem
  | .mk _ _ cs => descListL cs

/-- Document-order flattening of a sibling list with their descendants. -/
def descListL : List XmlElem → List XmlElem
  | [] => []
  | c :: rest => c :: (descList c ++ descListL rest)

end

mutual

/-- `e.find(".//" ++ t)`: first proper descendant with tag `t` in document
order. -/
def findDesc (t : String) : XmlElem → Option XmlElem
  | .mk _ _ cs => findDescL t cs

/-- The sibling-list worker of `findDesc`. -/
def findDescL (t : String) : List XmlElem → Option XmlElem
  | [] => none
  | c :: rest =>
    if c.tag = t then some c
    else
      match findDesc t c with
      | some r => some r
      | none => findDescL t rest

end

/-- The namespaced tag `svg:path` resolves to under
`ns = \x7b"svg": "http://www.w3.org/2000/svg"\x7d`. -/
def svgPathTag : String :=
  "\x7bhttp://www.w3.org/2000/svg\x7dpath"

/-- The module-level extraction: find the first `svg:path` descendant and
re-wrap it as a standalone SVG; with no match, `ET.tostring(None, ...)`
raises and process start aborts. -/
def extract_search_icon (root : XmlElem) : Except Unit String :=
  match findDesc svgPathTag root with
  | none => .error ()
  | some p =>
    .ok ("<svg xmlns=\x27http://www.w3.org/2000/svg\x27 viewBox=\x270 0 24 24\x27>"
      ++ serialize p ++ "</svg>")

/-! ## Filter lemmas -/

instance {ε α : Type} [DecidableEq ε] [DecidableEq α] : DecidableEq (Except ε α) := by
  intro x y
  cases x <;> cases y
  case error.error a b =>
    exact if h : a = b then .isTrue (by rw [h]) else .isFalse (by intro hh; cases hh; exact h rfl)
  case error.ok a b => exact .isFalse (by intro hh; cases hh)
  case ok.error a b => exact .isFalse (by intro hh; cases hh)
  case ok.ok a b =>
    exact if h : a = b then .isTrue (by rw [h]) else .isFalse (by intro hh; cases hh; exact h rfl)

theorem passSearch_some (q t : String) :
    passSearch q (some t) = .ok (decide (q = "") || titleMatches q t) := by
  rw [passSearch]
  split
  · simp [*]
  · simp [*]

theorem passDim_some (sel : List String) (v : String) :
    passDim sel (some v) = .ok (sel.isEmpty || sel.contains v) := by
  rw [passDim]
  split
  · simp [*]
  · rename_i h
    simp [h]

theorem checkApp_of_wf (cr : Criteria) (r : Record) (h : wellFormed r = true) :
    checkApp cr r = .ok (specPass cr r) := by
  rw [wellFormed] at h
  simp only [Bool.and_eq_true, Option.isSome_iff_exists] at h
  obtain ⟨⟨⟨⟨t, ht⟩, a, ha⟩, b, hb⟩, f, hf⟩ := h
  rw [checkApp, specPass, ht, ha, hb, hf]
  simp only [passSearch_some, passDim_some, Option.getD_some]
  cases hq : (decide (cr.searchText = "") || titleMatches cr.searchText t) <;>
    cases hA : (cr.aiTypes.isEmpty || cr.aiTypes.contains a) <;>
      cases hB : (cr.businessLines.isEmpty || cr.businessLines.contains b) <;>
        cases hF : (cr.functions.isEmpty || cr.functions.contains f) <;>
          simp [hq, hA, hB, hF]

theorem filtered_apps_of_wf (cr : Criteria) (catalog : List Record)
    (h : ∀ r ∈ catalog, wellFormed r = true) :
    filtered_apps cr catalog = .ok (catalog.filter (fun r => specPass cr r)) := by
  induction catalog with
  | nil => rfl
  | cons a rest ih =>
    have ha : wellFormed a = true := h a (List.mem_cons_self a rest)
    have hrest : ∀ r ∈ rest, wellFormed r = true := fun r hr => h r (List.mem_cons_of_mem a hr)
    rw [filtered_apps, checkApp_of_wf cr a ha, ih hrest]
    cases hp : specPass cr a <;> simp [List.filter_cons, hp]

/-! ## Concrete records used by witnesses (the spec's §8 scenario) -/

def riskApp : Record :=
  { title := some "Risk Summarizer", ai_type := some "NLP",
    business_line := some "Investment Bank", function := some "Research" }

def kycApp : Record :=
  { title := some "KYC Assistant", ai_type := some "Predictive Analytics",
    business_line := some "Wealth Management", function := some "KYC & Risk" }

def demoCatalog : List Record := [riskApp, kycApp]

def searchKyc : Criteria := { searchText := "kyc" }

/-- C2: for a catalog of records carrying all filterable fields, a record is
in the filtered output iff it is in the catalog and satisfies the four
AND-combined predicates (empty search or case-insensitive title containment;
and for each categorical dimension, empty selection or membership). -/
theorem c2_filter_membership (cr : Criteria) (catalog : List Record)
    (hwf : ∀ r ∈ catalog, wellFormed r = true) (out : List Record)
    (hout : filtered_apps cr catalog = .ok out) (r : Record) :
    r ∈ out ↔ r ∈ catalog ∧ specPass cr r = true := by
  have hfe := filtered_apps_of_wf cr catalog hwf
  rw [hout] at hfe
  have : out = catalog.filter (fun r => specPass cr r) := by
    exact Except.ok.inj hfe
  subst this
  simp [List.mem_filter]

/-- Witness for C2: the spec's two-card scenario with search "kyc". -/
theorem c2_filter_membership_witness :
    kycApp ∈ [kycApp] ↔ kycApp ∈ demoCatalog ∧ specPass searchKyc kycApp = true :=
  c2_filter_membership searchKyc demoCatalog (by decide) [kycApp] (by decide) kycApp

theorem filtered_apps_sublist (cr : Criteria) :
    ∀ catalog out, filtered_apps cr catalog = .ok out → out.Sublist catalog := by
  intro catalog
  induction catalog with
  | nil =>
    intro out h
    rw [filtered_apps] at h
    rw [← Except.ok.inj h]
  | cons a rest ih =>
    intro out h
    rw [filtered_apps] at h
    rcases hca : checkApp cr a with e | keep <;> rw [hca] at h
    · exact Except.noConfusion h
    · rcases hfr : filtered_apps cr rest with e | out' <;> rw [hfr] at h
      · exact Except.noConfusion h
      · rw [← Except.ok.inj h]
        cases keep
        · simpa using (ih out' hfr).cons a
        · simpa using (ih out' hfr).cons₂ a

theorem checkApp_empty_criteria (cr : Criteria) (r : Record)
    (hq : cr.searchText = "") (hA : cr.aiTypes = []) (hB : cr.businessLines = [])
    (hF : cr.functions = []) : checkApp cr r = .ok true := by
  rw [checkApp, hq, hA, hB, hF]
  rfl

/-- C3: the filtered output (when filtering completes) is a subsequence of
the input catalog, preserving relative order with no reordering or
deduplication; with empty search text and all three selections empty the
output is the whole catalog unchanged. -/
theorem c3_subsequence_and_identity (cr : Criteria) (catalog : List Record) :
    (∀ out, filtered_apps cr catalog = .ok out → out.Sublist catalog) ∧
    (cr.searchText = "" → cr.aiTypes = [] → cr.businessLines = [] → cr.functions = [] →
      filtered_apps cr catalog = .ok catalog) := by
  constructor
  · exact fun out h => filtered_apps_sublist cr catalog out h
  · intro hq hA hB hF
    induction catalog with
    | nil => rfl
    | cons a rest ih =>
      rw [filtered_apps, checkApp_empty_criteria cr a hq hA hB hF, ih]
      rfl

def emptyCriteria : Criteria := {}

/-- Witness for C3: the "kyc" search output is a subsequence of the demo
catalog, and empty criteria return it unchanged. -/
theorem c3_subsequence_and_identity_witness :
    ([kycApp] : List Record).Sublist demoCatalog ∧
      filtered_apps emptyCriteria demoCatalog = .ok demoCatalog :=
  ⟨(c3_subsequence_and_identity searchKyc demoCatalog).1 [kycApp] (by decide),
    (c3_subsequence_and_identity emptyCriteria demoCatalog).2 rfl rfl rfl rfl⟩

/-! ## Missing-field behaviour (C4, C5) -/

theorem passSearch_empty (t : Option String) : passSearch "" t = .ok true := rfl

theorem passSearch_none_ne (q : String) (h : q ≠ "") : passSearch q none = .error () := by
  rw [passSearch]
  simp [h]

theorem passDim_none_ne (sel : List String) (h : sel ≠ []) : passDim sel none = .error () := by
  rw [passDim]
  cases sel with
  | nil => exact absurd rfl h
  | cons a as => rfl

theorem filtered_apps_cons_error (cr : Criteria) (r : Record) (rest : List Record)
    (h : checkApp cr r = .error ()) : filtered_apps cr (r :: rest) = .error () := by
  rw [filtered_apps, h]

/-- A record with no `ai_type` key, used as the C4 failing input. -/
def noAiApp : Record :=
  { title := some "Mystery App", business_line := some "Wealth Management",
    function := some "Advisory" }

/-- An active AI-type selection. -/
def aiOnlyCriteria : Criteria := { aiTypes := ["NLP"] }

/-- Counterexample for C4: a record missing `ai_type` under a non-empty
AI-type selection makes the whole filter loop raise `KeyError` — the record
is not silently excluded and the remaining records are never processed. -/
theorem c4_counterexample :
    filtered_apps aiOnlyCriteria [noAiApp, riskApp] = .error () ∧
      filtered_apps aiOnlyCriteria [noAiApp, riskApp] ≠ .ok [riskApp] := by
  decide

/-- C4 (amended): with empty search text, a record missing a categorical
field is fatal under a non-empty selection on that dimension — `app[k]`
raises `KeyError`, aborting the whole filtering — while empty selections
let the record pass. -/
theorem c4_missing_dimension (cr : Criteria) (r : Record) (hq : cr.searchText = "") :
    (r.ai_type = none → cr.aiTypes ≠ [] →
      checkApp cr r = .error () ∧ ∀ rest, filtered_apps cr (r :: rest) = .error ()) ∧
    (r.business_line = none → cr.aiTypes = [] → cr.businessLines ≠ [] →
      checkApp cr r = .error ()) ∧
    (r.function = none → cr.aiTypes = [] → cr.businessLines = [] → cr.functions ≠ [] →
      checkApp cr r = .error ()) ∧
    (cr.aiTypes = [] → cr.businessLines = [] → cr.functions = [] →
      checkApp cr r = .ok true) := by
  refine ⟨?_, ?_, ?_, ?_⟩
  · intro hr hne
    have hc : checkApp cr r = .error () := by
      rw [checkApp, hq, hr, passSearch_empty, passDim_none_ne cr.aiTypes hne]
    exact ⟨hc, fun rest => filtered_apps_cons_error cr r rest hc⟩
  · intro hr hA hne
    rw [checkApp, hq, hr, hA, passSearch_empty, passDim_none_ne cr.businessLines hne]
    rfl
  · intro hr hA hB hne
    rw [checkApp, hq, hr, hA, hB, passSearch_empty, passDim_none_ne cr.functions hne]
    rfl
  · exact fun hA hB hF => checkApp_empty_criteria cr r hq hA hB hF

/-- Witness for C4 (amended): the concrete missing-`ai_type` record under an
active AI-type filter aborts filtering of a two-record catalog. -/
theorem c4_missing_dimension_witness :
    checkApp aiOnlyCriteria noAiApp = .error () ∧
      filtered_apps aiOnlyCriteria [noAiApp, riskApp] = .error () :=
  ⟨((c4_missing_dimension aiOnlyCriteria noAiApp rfl).1 rfl (by decide)).1,
    ((c4_missing_dimension aiOnlyCriteria noAiApp rfl).1 rfl (by decide)).2 [riskApp]⟩

/-- A record with no `title` key, used as the C5 failing input. -/
def noTitleApp : Record :=
  { description := some "An app", ai_type := some "NLP",
    business_line := some "Wealth Management", function := some "Advisory" }

/-- Counterexample for C5: with a non-empty search query, a record missing
`title` makes `app["title"]` raise `KeyError`, aborting filtering instead of
substituting a placeholder. -/
theorem c5_counterexample :
    filtered_apps searchKyc [noTitleApp] = .error () ∧
      filtered_apps searchKyc [noTitleApp] ≠ .ok [] := by
  decide

/-- C5 (amended): a record with no `title` aborts filtering via `KeyError`
whenever the search text is non-empty; with empty search text (and empty
selections) it passes, and rendering substitutes the placeholder title
`Untitled application`. -/
theorem c5_missing_title (r : Record) (h : r.title = none) (cr : Criteria) :
    (cr.searchText ≠ "" → ∀ rest, filtered_apps cr (r :: rest) = .error ()) ∧
    (cr.searchText = "" → cr.aiTypes = [] → cr.businessLines = [] → cr.functions = [] →
      checkApp cr r = .ok true) ∧
    card_title r = "Untitled application" := by
  refine ⟨?_, ?_, ?_⟩
  · intro hne rest
    apply filtered_apps_cons_error
    rw [checkApp, h, passSearch_none_ne cr.searchText hne]
  · exact fun hq hA hB hF => checkApp_empty_criteria cr r hq hA hB hF
  · rw [card_title, h]
    decide

/-- Witness for C5 (amended): the concrete titleless record aborts the "kyc"
search, passes empty criteria, and renders with the placeholder title. -/
theorem c5_missing_title_witness :
    filtered_apps searchKyc [noTitleApp] = .error () ∧
      checkApp emptyCriteria noTitleApp = .ok true ∧
      card_title noTitleApp = "Untitled application" :=
  ⟨(c5_missing_title noTitleApp rfl searchKyc).1 (by decide) [],
    (c5_missing_title noTitleApp rfl emptyCriteria).2.1 rfl rfl rfl rfl,
    (c5_missing_title noTitleApp rfl emptyCriteria).2.2⟩

/-! ## Demo-link signing failure (C1) -/

/-- A signing capability that always fails (missing configuration or a
signing error: `get_signed_url` returns `None`). -/
def failSign : String → Option String := fun _ => none

/-- A card with only a demo link. -/
def demoOnlyApp : Record := { title := some "Demo App", demo_url := some "demo.mp4" }

/-- Counterexample for C1: with empty `app_url`/`docs_url`, a set `demo_url`
and failing signing, `render_app_card` still renders the `Watch demo` action
and links it to the raw unsigned `demo_url` — the actions list is not
empty. -/
theorem c1_counterexample :
    buildActions failSign demoOnlyApp = ([demoAction "demo.mp4"], true) ∧
      (buildActions failSign demoOnlyApp).1 ≠ [] := by
  decide

/-- C1 (amended): when signing fails, `render_app_card` warns and keeps the
raw unsigned `demo_url`; a card with empty `app_url` and `docs_url` and a
set `demo_url` yields exactly the `Watch demo` action linking the raw URL
(with the warning surfaced). -/
theorem c1_demo_fallback (signed : String → Option String) (app : Record)
    (hApp : pyStrip (app.app_url.getD "") = "")
    (hDocs : pyStrip (app.docs_url.getD "") = "")
    (hDemo : pyStrip (app.demo_url.getD "") ≠ "")
    (hSign : signed (pyStrip (app.demo_url.getD "")) = none) :
    buildActions signed app = ([demoAction (pyStrip (app.demo_url.getD ""))], true) := by
  rw [buildActions]
  simp only [hApp, hDocs]
  rw [resolveDemo]
  simp [hDemo, hSign]

/-- Witness for C1 (amended): the concrete demo-only card under failing
signing. -/
theorem c1_demo_fallback_witness :
    buildActions failSign demoOnlyApp
      = ([demoAction (pyStrip (demoOnlyApp.demo_url.getD ""))], true) :=
  c1_demo_fallback failSign demoOnlyApp rfl rfl (by decide) rfl

/-! ## Archive lookup order (C6, C10) -/

theorem findInList_eq_find? (needles : List String) (mo : Option String) :
    ∀ rs : List WAResource,
      findInList rs needles mo
        = (rs.find? (matchesNeedles needles)).map (fun r => dataUriFromWa r mo) := by
  intro rs
  induction rs with
  | nil => rfl
  | cons r rest ih =>
    cases hm : matchesNeedles needles r <;> simp [findInList, List.find?_cons, hm, ih]

theorem findInList_skip (needles : List String) (mo : Option String) :
    ∀ pre l, (∀ p ∈ pre, matchesNeedles needles p = false) →
      findInList (pre ++ l) needles mo = findInList l needles mo := by
  intro pre
  induction pre with
  | nil => intro l _; rfl
  | cons p ps ih =>
    intro l h
    have hp : matchesNeedles needles p = false := h p (List.mem_cons_self p ps)
    have hps : ∀ q ∈ ps, matchesNeedles needles q = false :=
      fun q hq => h q (List.mem_cons_of_mem p hq)
    simp [findInList, hp, ih l hps]

/-- C6: a missing or unreadable archive yields `none`; otherwise the lookup
returns the data URI (declared MIME type or the override) of the first
sub-resource, in stored order, whose lower-cased URL contains every token —
in particular, of two matching sub-resources the earlier one wins — and
yields `none` when nothing matches (`find?` is `none` then). -/
theorem c6_first_match (needles : List String) (mo : Option String) :
    findFirstDataUri none needles mo = none ∧
    (∀ w : WebArchive,
      findFirstDataUri (some w) needles mo
        = (w.subresources.find? (matchesNeedles needles)).map (fun r => dataUriFromWa r mo)) ∧
    (∀ (w : WebArchive) (pre : List WAResource) (r1 : WAResource) (mid : List WAResource)
        (r2 : WAResource) (post : List WAResource),
      w.subresources = pre ++ r1 :: (mid ++ r2 :: post) →
      (∀ p ∈ pre, matchesNeedles needles p = false) →
      matchesNeedles needles r1 = true → matchesNeedles needles r2 = true →
      findFirstDataUri (some w) needles mo = some (dataUriFromWa r1 mo)) := by
  refine ⟨rfl, fun w => findInList_eq_find? needles mo w.subresources, ?_⟩
  intro w pre r1 mid r2 post hsub hpre h1 _
  rw [findFirstDataUri, hsub, findInList_skip needles mo pre _ hpre, findInList, h1]
  rfl

/-- Sample archive entries for the lookup witnesses. -/
def sampleRes1 : WAResource :=
  { url := some "https://example.com/assets/UBS_logo-Semibold.SVG",
    mime := some "image/svg+xml", data := some [77, 97, 110] }

def sampleRes2 : WAResource :=
  { url := some "https://example.com/assets/other-logo.svg",
    mime := some "image/svg+xml", data := some [77, 97] }

def sampleArchive : WebArchive := { subresources := [sampleRes1, sampleRes2] }

/-- Witness for C6: both sample resources match `.svg`, and the earlier one
is returned. -/
theorem c6_first_match_witness :
    findFirstDataUri (some sampleArchive) [".svg"] none
      = some (dataUriFromWa sampleRes1 none) :=
  (c6_first_match [".svg"] none).2.2 sampleArchive [] sampleRes1 [] sampleRes2 []
    rfl (by decide) (by decide) (by decide)

/-- C10: on a readable archive with a non-empty resource list, an empty
token list matches every URL vacuously, so the lookup returns the data URI
of the very first sub-resource rather than `none`. -/
theorem c10_empty_tokens (w : WebArchive) (mo : Option String) (r : WAResource)
    (rest : List WAResource) (h : w.subresources = r :: rest) :
    findFirstDataUri (some w) [] mo = some (dataUriFromWa r mo) := by
  rw [findFirstDataUri, h, findInList]
  rfl

/-- Witness for C10: the sample archive under an empty token list yields the
first resource's data URI. -/
theorem c10_empty_tokens_witness :
    findFirstDataUri (some sampleArchive) [] none = some (dataUriFromWa sampleRes1 none) :=
  c10_empty_tokens sampleArchive none sampleRes1 [sampleRes2] rfl

/-! ## Terminal defaults (C7) -/

/-- C7: when every archive lookup yields no match (in particular when the
archive is missing), each asset resolves without error to its terminal
default: the hardcoded remote URLs for the logo and hero, `none` for all
optional fonts, and the font-face CSS is empty (the faces are simply
omitted). -/
theorem c7_terminal_defaults (wa : Option WebArchive)
    (h : ∀ ns mo, findFirstDataUri wa ns mo = none) :
    LOGO_URI wa = "https://www.ubs.com/etc/designs/fit/img/UBS_Logo_Semibold.svg" ∧
    HERO_URI wa
      = "https://www.ubs.com/content/homepage/uk/en/new-promotions/gwr2025/jcr:content/promotion/image-l.3840.jpg/1750249353973.jpg" ∧
    FONT_LT wa = none ∧ FONT_RG wa = none ∧ FONT_MD wa = none ∧ UBS_ICONS wa = none ∧
    fontface_blocks (FONT_LT wa) (FONT_RG wa) (FONT_MD wa) (UBS_ICONS wa) = "" := by
  have hLT : FONT_LT wa = none := by
    rw [FONT_LT]
    simp only [h]
    rfl
  have hRG : FONT_RG wa = none := by
    rw [FONT_RG]
    simp only [h]
    rfl
  have hMD : FONT_MD wa = none := by
    rw [FONT_MD]
    simp only [h]
    rfl
  have hIC : UBS_ICONS wa = none := by
    rw [UBS_ICONS, h]
  refine ⟨?_, ?_, hLT, hRG, hMD, hIC, ?_⟩
  · rw [LOGO_URI, h]
    rfl
  · rw [HERO_URI, h]
    rfl
  · rw [hLT, hRG, hMD, hIC]
    rfl

/-- Witness for C7: the archive file is missing, so every lookup is `none`
and every terminal default applies. -/
theorem c7_terminal_defaults_witness :
    LOGO_URI none = "https://www.ubs.com/etc/designs/fit/img/UBS_Logo_Semibold.svg" ∧
    HERO_URI none
      = "https://www.ubs.com/content/homepage/uk/en/new-promotions/gwr2025/jcr:content/promotion/image-l.3840.jpg/1750249353973.jpg" ∧
    FONT_LT none = none ∧ FONT_RG none = none ∧ FONT_MD none = none ∧ UBS_ICONS none = none ∧
    fontface_blocks (FONT_LT none) (FONT_RG none) (FONT_MD none) (UBS_ICONS none) = "" :=
  c7_terminal_defaults none (fun _ _ => rfl)

/-! ## Font-face emission order (C8) -/

/-- C8: the emitted face list is exactly `[light(300)?, regular(400)?,
medium(500)?, light-as-400 alias iff light present and regular absent,
icons(300)?]` in that order, so whenever the light font resolves there is a
weight-400 declaration. -/
theorem c8_fontface_order (lt rg md ic : Option String) :
    fontface_faces lt rg md ic =
      (if pyTruthy lt then [frutigerFace "300" (lt.getD "")] else [])
      ++ (if pyTruthy rg then [frutigerFace "400" (rg.getD "")] else [])
      ++ (if pyTruthy md then [frutigerFace "500" (md.getD "")] else [])
      ++ (if pyTruthy lt && !pyTruthy rg then [frutigerFace "400" (lt.getD "")] else [])
      ++ (if pyTruthy ic then [iconsFace (ic.getD "")] else []) ∧
    (pyTruthy lt = true → ∃ u, frutigerFace "400" u ∈ fontface_faces lt rg md ic) := by
  constructor
  · simp only [fontface_faces]
    cases h1 : pyTruthy lt <;> cases h2 : pyTruthy rg <;> cases h3 : pyTruthy md <;>
      cases h4 : pyTruthy ic <;> simp [h1, h2, h3, h4]
  · intro hlt
    cases hrg : pyTruthy rg
    · refine ⟨lt.getD "", ?_⟩
      simp only [fontface_faces]
      simp only [hlt, hrg]
      cases hmd : pyTruthy md <;> cases hic : pyTruthy ic <;> simp [hmd, hic]
    · refine ⟨rg.getD "", ?_⟩
      simp only [fontface_faces]
      simp only [hlt, hrg]
      cases hmd : pyTruthy md <;> cases hic : pyTruthy ic <;> simp [hmd, hic]

/-- Witness for C8: with only the light font resolved, a weight-400
declaration is still emitted. -/
theorem c8_fontface_order_witness :
    ∃ u, frutigerFace "400" u ∈ fontface_faces (some "LT-DATA") none none none :=
  (c8_fontface_order (some "LT-DATA") none none none).2 (by decide)

/-! ## Search-icon extraction order and failure (C9) -/

theorem find?_eq_head?_filter {α : Type} (p : α → Bool) :
    ∀ l : List α, l.find? p = (l.filter p).head? := by
  intro l
  induction l with
  | nil => rfl
  | cons a t ih =>
    rw [List.find?_cons, List.filter_cons]
    cases h : p a
    · simp only [h]
      exact ih
    · simp only [h]
      rfl

mutual

theorem findDesc_eq_find? (t : String) :
    ∀ e : XmlElem, findDesc t e = (descList e).find? (fun x => decide (x.tag = t))
  | .mk tg attrs cs => by
    rw [findDesc, descList]
    exact findDescL_eq_find? t cs

theorem findDescL_eq_find? (t : String) :
    ∀ l : List XmlElem, findDescL t l = (descListL l).find? (fun x => decide (x.tag = t))
  | [] => rfl
  | c :: rest => by
    rw [findDescL, descListL, List.find?_cons]
    by_cases hc : c.tag = t
    · simp [hc]
    · rw [if_neg hc, decide_eq_false hc]
      rw [List.find?_append, findDesc_eq_find? t c, findDescL_eq_find? t rest]
      cases (descList c).find? (fun x => decide (x.tag = t)) <;> simp [Option.or]

end

/-- C9: the extraction takes the first `svg:path` descendant in document
order — stated via the document-order filter: an empty filter result means
the extraction errors (so startup aborts), and a non-empty one means the
head of the filter, re-wrapped as a standalone SVG, is returned. -/
theorem c9_search_icon (root : XmlElem) :
    ((descList root).filter (fun x => decide (x.tag = svgPathTag)) = [] →
      extract_search_icon root = .error ()) ∧
    (∀ p ps, (descList root).filter (fun x => decide (x.tag = svgPathTag)) = p :: ps →
      extract_search_icon root
        = .ok ("<svg xmlns=\x27http://www.w3.org/2000/svg\x27 viewBox=\x270 0 24 24\x27>"
            ++ serialize p ++ "</svg>")) := by
  have hfd : findDesc svgPathTag root
      = ((descList root).filter (fun x => decide (x.tag = svgPathTag))).head? := by
    rw [findDesc_eq_find?, find?_eq_head?_filter]
  constructor
  · intro hnil
    rw [extract_search_icon, hfd, hnil]
    rfl
  · intro p ps hcons
    rw [extract_search_icon, hfd, hcons]
    rfl

/-- A sample fetched icon-definitions document: defs wrapping a symbol that
holds a path, plus a trailing path. -/
def samplePath1 : XmlElem :=
  .mk svgPathTag [("d", "M5 3l5 5-5 5")] []

def samplePath2 : XmlElem :=
  .mk svgPathTag [("d", "M0 0h24v24")] []

def sampleDefs : XmlElem :=
  .mk "\x7bhttp://www.w3.org/2000/svg\x7dsvg" []
    [.mk "\x7bhttp://www.w3.org/2000/svg\x7dsymbol" [] [samplePath1], samplePath2]

/-- Witness for C9: on the sample document the first path in document order
is extracted and re-wrapped. -/
theorem c9_search_icon_witness :
    extract_search_icon sampleDefs
      = .ok ("<svg xmlns=\x27http://www.w3.org/2000/svg\x27 viewBox=\x270 0 24 24\x27>"
          ++ serialize samplePath1 ++ "</svg>") :=
  (c9_search_icon sampleDefs).2 samplePath1 [samplePath2] rfl

end UbsMarketplace
